import Mathlib

/-!
Verification of the router's event-processing pipeline and the safe-templating
quote-tracking scanners, shallowly embedded from the Go sources.

Strings handled by the scanners are modelled as lists of bytes (`List Nat`,
values < 256), because the Go code indexes `routePath[i]` bytewise.
-/

namespace RouterProof

/-- Go's `unicode.IsLetter` restricted to the code points 0..255 that can arise
from converting a single byte to a `rune` (`rune(next)` in the source):
ASCII letters plus the Latin-1 letters ª µ º À–Ö Ø–ö ø–ÿ. -/
def goIsLetter (b : Nat) : Bool :=
  decide ((65 ≤ b ∧ b ≤ 90) ∨ (97 ≤ b ∧ b ≤ 122) ∨ b = 170 ∨ b = 181 ∨ b = 186 ∨
    (192 ≤ b ∧ b ≤ 214) ∨ (216 ≤ b ∧ b ≤ 246) ∨ (248 ≤ b ∧ b ≤ 255))

/-- The scan loop of `pathWithRewriteHasInvalidChars`
(src/pkg/router/template/haproxy_fuzz_test.go, lines 333-379), with the
double-quote state `dq` and single-quote state `sq` made explicit.
Byte constants: 34 `"`, 39 `'`, 92 `\`, 32 space, 35 `#`, 36 `$`, 95 `_`.
Returns `true` when the value is rejected. -/
def pathScan : List Nat → Bool → Bool → Bool
  | [], dq, sq => dq || sq
  | c :: rest, dq, sq =>
    if c == 34 then pathScan rest (if sq then dq else !dq) sq
    else if c == 39 then pathScan rest dq (if dq then sq else !sq)
    else if c == 92 then
      match rest with
      | [] => dq || sq
      | _ :: rest2 => pathScan rest2 dq sq
    else if !dq && !sq && (c == 32 || c == 35) then true
    else if dq && c == 36 then
      match rest with
      | [] => dq || sq
      | next :: _ =>
        if !(goIsLetter next || next == 95) then true
        else pathScan rest dq sq
    else pathScan rest dq sq

/-- `pathWithRewriteHasInvalidChars` from haproxy_fuzz_test.go: the scan is run
from the outside-both-quotes start state; `true` means the value is rejected. -/
def pathWithRewriteHasInvalidChars (s : List Nat) : Bool := pathScan s false false

/-- The scan loop of `fakeSimpleValidation`
(src/pkg/router/template/haproxy_fuzz_test.go, lines 1000-1033). It shares the
quote toggling and backslash skipping of `pathScan` but only rejects an
unquoted space or `#`; it has no unbalanced-quote check and no `$` check.
Returns `false` when the value is rejected. -/
def fakeScan : List Nat → Bool → Bool → Bool
  | [], _, _ => true
  | c :: rest, dq, sq =>
    if c == 34 then fakeScan rest (if sq then dq else !dq) sq
    else if c == 39 then fakeScan rest dq (if dq then sq else !sq)
    else if c == 92 then
      match rest with
      | [] => true
      | _ :: rest2 => fakeScan rest2 dq sq
    else if !dq && !sq && (c == 32 || c == 35) then false
    else fakeScan rest dq sq

/-- `fakeSimpleValidation` from haproxy_fuzz_test.go: `true` means accepted. -/
def fakeSimpleValidation (s : List Nat) : Bool := fakeScan s false false

/-- Which rule, if any, decides the scan of `pathWithRewriteHasInvalidChars`:
the same recursion as `pathScan`, but the three rejection sites are kept
apart (`spaceHash` for an unquoted space/`#`, `dollar` for a bad `$` sequence
inside double quotes, `unbalanced` for ending inside an open quote region). -/
inductive ScanCause
  | ok
  | spaceHash
  | dollar
  | unbalanced
deriving DecidableEq, Repr

/-- Cause-instrumented version of `pathScan`: identical control flow, but each
rejection site reports which rule fired. -/
def pathScanCause : List Nat → Bool → Bool → ScanCause
  | [], dq, sq => if dq || sq then ScanCause.unbalanced else ScanCause.ok
  | c :: rest, dq, sq =>
    if c == 34 then pathScanCause rest (if sq then dq else !dq) sq
    else if c == 39 then pathScanCause rest dq (if dq then sq else !sq)
    else if c == 92 then
      match rest with
      | [] => if dq || sq then ScanCause.unbalanced else ScanCause.ok
      | _ :: rest2 => pathScanCause rest2 dq sq
    else if !dq && !sq && (c == 32 || c == 35) then ScanCause.spaceHash
    else if dq && c == 36 then
      match rest with
      | [] => if dq || sq then ScanCause.unbalanced else ScanCause.ok
      | next :: _ =>
        if !(goIsLetter next || next == 95) then ScanCause.dollar
        else pathScanCause rest dq sq
    else pathScanCause rest dq sq

/-- The quote state the scan of `pathScan` is left in after consuming the whole
value, ignoring the rejection early-exits: the same quote toggling and
backslash skipping, returning the final (double-quote, single-quote) flags. -/
def quoteState : List Nat → Bool → Bool → Bool × Bool
  | [], dq, sq => (dq, sq)
  | c :: rest, dq, sq =>
    if c == 34 then quoteState rest (if sq then dq else !dq) sq
    else if c == 39 then quoteState rest dq (if dq then sq else !sq)
    else if c == 92 then
      match rest with
      | [] => (dq, sq)
      | _ :: rest2 => quoteState rest2 dq sq
    else quoteState rest dq sq

/-- The value's quote tracking ends inside an open quote region. -/
def endsInOpenQuote (s : List Nat) : Bool :=
  (quoteState s false false).1 || (quoteState s false false).2

/-- The scan encounters, while outside both quote regions and not consumed by a
backslash escape, a literal space or `#`. Expressed through `fakeScan`, whose
single rejection rule is exactly that. -/
def hasUnquotedSpaceOrHash (s : List Nat) : Bool := !(fakeScan s false false)

/-- The scan encounters, while inside a double-quoted region and not consumed
by a backslash escape, a `$` immediately followed by a byte that is neither a
letter nor `_`: the `$` rule of `pathScan` run over the whole value, with no
early exit at the other rejection rules. -/
def badDollarScan : List Nat → Bool → Bool → Bool
  | [], _, _ => false
  | c :: rest, dq, sq =>
    if c == 34 then badDollarScan rest (if sq then dq else !dq) sq
    else if c == 39 then badDollarScan rest dq (if dq then sq else !sq)
    else if c == 92 then
      match rest with
      | [] => false
      | _ :: rest2 => badDollarScan rest2 dq sq
    else if dq && c == 36 then
      match rest with
      | [] => false
      | next :: _ =>
        if !(goIsLetter next || next == 95) then true
        else badDollarScan rest dq sq
    else badDollarScan rest dq sq

/-- The value contains a scanned bad `$` sequence inside double quotes. -/
def hasBadDollar (s : List Nat) : Bool := badDollarScan s false false

/-! Step lemmas: one unfolding equation per scanner, mirroring the loop body. -/

theorem pathScan_cons (c : Nat) (rest : List Nat) (dq sq : Bool) :
    pathScan (c :: rest) dq sq =
      (if c == 34 then pathScan rest (if sq then dq else !dq) sq
      else if c == 39 then pathScan rest dq (if dq then sq else !sq)
      else if c == 92 then
        match rest with
        | [] => dq || sq
        | _ :: rest2 => pathScan rest2 dq sq
      else if !dq && !sq && (c == 32 || c == 35) then true
      else if dq && c == 36 then
        match rest with
        | [] => dq || sq
        | next :: _ =>
          if !(goIsLetter next || next == 95) then true
          else pathScan rest dq sq
      else pathScan rest dq sq) := by
  rw [pathScan.eq_def]

theorem fakeScan_cons (c : Nat) (rest : List Nat) (dq sq : Bool) :
    fakeScan (c :: rest) dq sq =
      (if c == 34 then fakeScan rest (if sq then dq else !dq) sq
      else if c == 39 then fakeScan rest dq (if dq then sq else !sq)
      else if c == 92 then
        match rest with
        | [] => true
        | _ :: rest2 => fakeScan rest2 dq sq
      else if !dq && !sq && (c == 32 || c == 35) then false
      else fakeScan rest dq sq) := by
  rw [fakeScan.eq_def]

theorem pathScanCause_cons (c : Nat) (rest : List Nat) (dq sq : Bool) :
    pathScanCause (c :: rest) dq sq =
      (if c == 34 then pathScanCause rest (if sq then dq else !dq) sq
      else if c == 39 then pathScanCause rest dq (if dq then sq else !sq)
      else if c == 92 then
        match rest with
        | [] => if dq || sq then ScanCause.unbalanced else ScanCause.ok
        | _ :: rest2 => pathScanCause rest2 dq sq
      else if !dq && !sq && (c == 32 || c == 35) then ScanCause.spaceHash
      else if dq && c == 36 then
        match rest with
        | [] => if dq || sq then ScanCause.unbalanced else ScanCause.ok
        | next :: _ =>
          if !(goIsLetter next || next == 95) then ScanCause.dollar
          else pathScanCause rest dq sq
      else pathScanCause rest dq sq) := by
  rw [pathScanCause.eq_def]

theorem quoteState_cons (c : Nat) (rest : List Nat) (dq sq : Bool) :
    quoteState (c :: rest) dq sq =
      (if c == 34 then quoteState rest (if sq then dq else !dq) sq
      else if c == 39 then quoteState rest dq (if dq then sq else !sq)
      else if c == 92 then
        match rest with
        | [] => (dq, sq)
        | _ :: rest2 => quoteState rest2 dq sq
      else quoteState rest dq sq) := by
  rw [quoteState.eq_def]

theorem badDollarScan_cons (c : Nat) (rest : List Nat) (dq sq : Bool) :
    badDollarScan (c :: rest) dq sq =
      (if c == 34 then badDollarScan rest (if sq then dq else !dq) sq
      else if c == 39 then badDollarScan rest dq (if dq then sq else !sq)
      else if c == 92 then
        match rest with
        | [] => false
        | _ :: rest2 => badDollarScan rest2 dq sq
      else if dq && c == 36 then
        match rest with
        | [] => false
        | next :: _ =>
          if !(goIsLetter next || next == 95) then true
          else badDollarScan rest dq sq
      else badDollarScan rest dq sq) := by
  rw [badDollarScan.eq_def]

theorem pathScan_nil (dq sq : Bool) : pathScan [] dq sq = (dq || sq) := rfl
theorem fakeScan_nil (dq sq : Bool) : fakeScan [] dq sq = true := rfl
theorem pathScanCause_nil (dq sq : Bool) :
    pathScanCause [] dq sq = if dq || sq then ScanCause.unbalanced else ScanCause.ok := rfl
theorem quoteState_nil (dq sq : Bool) : quoteState [] dq sq = (dq, sq) := rfl
theorem badDollarScan_nil (dq sq : Bool) : badDollarScan [] dq sq = false := rfl

/-- All lockstep facts about the five scanners, proved by one induction that
follows the branching of `pathScan`:
1. `pathScan` rejects exactly when the cause-instrumented scan reports a cause;
2. a value `fakeScan` rejects (unquoted space/`#`) is rejected by `pathScan`;
3. a value whose quote tracking ends inside an open region is rejected;
4. with no unquoted space/`#` and balanced quoting, neither of those two rules
   is the reported cause;
5. a value with a scanned bad `$` inside double quotes is rejected;
6. without such a `$`, the reported cause is never the `$` rule. -/
theorem scan_facts (s : List Nat) (dq sq : Bool) :
    (pathScan s dq sq = true ↔ pathScanCause s dq sq ≠ ScanCause.ok) ∧
    (fakeScan s dq sq = false → pathScan s dq sq = true) ∧
    (((quoteState s dq sq).1 || (quoteState s dq sq).2) = true → pathScan s dq sq = true) ∧
    (fakeScan s dq sq = true → (quoteState s dq sq).1 = false → (quoteState s dq sq).2 = false →
      pathScanCause s dq sq ≠ ScanCause.spaceHash ∧ pathScanCause s dq sq ≠ ScanCause.unbalanced) ∧
    (badDollarScan s dq sq = true → pathScan s dq sq = true) ∧
    (badDollarScan s dq sq = false → pathScanCause s dq sq ≠ ScanCause.dollar) := by
  induction s, dq, sq using pathScan.induct with
  | case1 dq sq =>
      simp only [pathScan_nil, fakeScan_nil, pathScanCause_nil, quoteState_nil, badDollarScan_nil]
      cases dq <;> cases sq <;> simp
  | case2 c rest dq sq h34 ih =>
      simpa [pathScan_cons, fakeScan_cons, pathScanCause_cons, quoteState_cons,
        badDollarScan_cons, h34] using ih
  | case3 c rest dq sq h34 h39 ih =>
      simp only [Bool.not_eq_true] at h34
      simpa [pathScan_cons, fakeScan_cons, pathScanCause_cons, quoteState_cons,
        badDollarScan_cons, h34, h39] using ih
  | case4 c dq sq h34 h39 h92 =>
      simp only [Bool.not_eq_true] at h34 h39
      simp only [pathScan_cons, fakeScan_cons, pathScanCause_cons, quoteState_cons,
        badDollarScan_cons, h34, h39, h92]
      cases dq <;> cases sq <;> simp
  | case5 c dq sq h34 h39 h92 head rest2 ih =>
      simp only [Bool.not_eq_true] at h34 h39
      simpa [pathScan_cons, fakeScan_cons, pathScanCause_cons, quoteState_cons,
        badDollarScan_cons, h34, h39, h92] using ih
  | case6 c rest dq sq h34 h39 h92 hsp =>
      simp only [Bool.not_eq_true] at h34 h39 h92
      have hdq : dq = false := by
        cases dq
        · rfl
        · simp at hsp
      have hsq : sq = false := by
        cases sq
        · rfl
        · cases dq <;> simp at hsp
      subst hdq; subst hsq
      have hc : c = 32 ∨ c = 35 := by simpa using hsp
      rcases hc with hc | hc <;> subst hc <;>
        simp [pathScan_cons, fakeScan_cons, pathScanCause_cons, quoteState_cons,
          badDollarScan_cons, pathScan_nil, fakeScan_nil, pathScanCause_nil, quoteState_nil,
          badDollarScan_nil]
  | case7 c dq sq h34 h39 h92 hsp hdl =>
      simp only [Bool.not_eq_true] at h34 h39 h92 hsp
      have hdq : dq = true := by
        cases dq
        · simp at hdl
        · rfl
      subst hdq
      simp [pathScan_cons, fakeScan_cons, pathScanCause_cons, quoteState_cons,
        badDollarScan_cons, pathScan_nil, fakeScan_nil, pathScanCause_nil, quoteState_nil,
        badDollarScan_nil, h34, h39, h92, hdl]
  | case8 c dq sq h34 h39 h92 hsp hdl head rest2 hbad =>
      simp only [Bool.not_eq_true] at h34 h39 h92 hsp
      have hdq : dq = true := by
        cases dq
        · simp at hdl
        · rfl
      subst hdq
      simp [pathScan_cons, fakeScan_cons, pathScanCause_cons, quoteState_cons,
        badDollarScan_cons, h34, h39, h92, hdl, hbad]
  | case9 c dq sq h34 h39 h92 hsp hdl head rest2 hgood ih =>
      simp only [Bool.not_eq_true] at h34 h39 h92 hsp hgood
      have hdq : dq = true := by
        cases dq
        · simp at hdl
        · rfl
      subst hdq
      simpa [pathScan_cons, fakeScan_cons, pathScanCause_cons, quoteState_cons,
        badDollarScan_cons, h34, h39, h92, hdl, hgood] using ih
  | case10 c rest dq sq h34 h39 h92 hsp hdl ih =>
      simp only [Bool.not_eq_true] at h34 h39 h92 hsp hdl
      simpa [pathScan_cons, fakeScan_cons, pathScanCause_cons, quoteState_cons,
        badDollarScan_cons, h34, h39, h92, hsp, hdl] using ih

/-- C1: the quote-tracking scanner rejects every value in which the scan, while
outside both quote regions, meets a literal (unescaped) space or `#`, and
rejects every value whose quote tracking ends inside an open quote region;
conversely, for a value with balanced quoting whose spaces and `#` are all
inside quote regions (no unquoted space or `#` is ever scanned), neither of
those two rules is the cause of a rejection (only the separate `$` rule can
still fire). The last conjunct grounds the cause-instrumented scan in
`pathWithRewriteHasInvalidChars` itself. -/
theorem c1_space_hash_and_balance_rules (s : List Nat) :
    (hasUnquotedSpaceOrHash s = true → pathWithRewriteHasInvalidChars s = true) ∧
    (endsInOpenQuote s = true → pathWithRewriteHasInvalidChars s = true) ∧
    (hasUnquotedSpaceOrHash s = false → endsInOpenQuote s = false →
      pathScanCause s false false ≠ ScanCause.spaceHash ∧
      pathScanCause s false false ≠ ScanCause.unbalanced) ∧
    (pathWithRewriteHasInvalidChars s = true ↔ pathScanCause s false false ≠ ScanCause.ok) := by
  obtain ⟨h1, h2, h3, h4, _, _⟩ := scan_facts s false false
  refine ⟨fun h => h2 ?_, fun h => h3 (by simpa [endsInOpenQuote] using h), fun h h5 => ?_, h1⟩
  · simpa [hasUnquotedSpaceOrHash] using h
  · have hf : fakeScan s false false = true := by
      simpa [hasUnquotedSpaceOrHash] using h
    have hq : (quoteState s false false).1 = false ∧ (quoteState s false false).2 = false := by
      simpa [endsInOpenQuote] using h5
    exact h4 hf hq.1 hq.2

/-- Witness for C1: the unquoted space in `a<space>` triggers rejection, the
unbalanced `"a` triggers rejection, and the balanced `"a"` with no unquoted
space/`#` is rejected by neither of the two rules. -/
theorem c1_space_hash_and_balance_rules_witness :
    pathWithRewriteHasInvalidChars [97, 32] = true ∧
    pathWithRewriteHasInvalidChars [34, 97] = true ∧
    (pathScanCause [34, 97, 34] false false ≠ ScanCause.spaceHash ∧
     pathScanCause [34, 97, 34] false false ≠ ScanCause.unbalanced) :=
  ⟨(c1_space_hash_and_balance_rules [97, 32]).1 (by decide),
   (c1_space_hash_and_balance_rules [34, 97]).2.1 (by decide),
   (c1_space_hash_and_balance_rules [34, 97, 34]).2.2.1 (by decide) (by decide)⟩

/-- C2 counterexample: the claim says a backslash inside a quote region has no
escaping effect and does not consume the following character. Under that
reading, `'\'` (bytes 39 92 39) is balanced, hence accepted, and `'\''`
(bytes 39 92 39 39) ends inside an open region, hence rejected; likewise
`'\' ` (bytes 39 92 39 32) has its space outside quotes, so
`fakeSimpleValidation` would reject it. The code does the opposite on all
three inputs, because the backslash consumes the following quote even inside
the single-quoted region (haproxy_fuzz_test.go line 355 checks only
`c == '\\' && i+1 < len`, with no quote-state guard). -/
theorem c2_counterexample :
    pathWithRewriteHasInvalidChars [39, 92, 39] = true ∧
    pathWithRewriteHasInvalidChars [39, 92, 39, 39] = false ∧
    fakeSimpleValidation [39, 92, 39, 32] = true := by decide

/-- C2 (amended): in both scanners, a backslash that is not the last character
escapes exactly the next character in every quote state — outside quote
regions and equally inside single- or double-quoted regions: the two
characters are consumed as a pair and the escaped character is never
reinterpreted for quote tracking or the rejection rules. -/
theorem c2_backslash_escapes_next (x : Nat) (rest : List Nat) (dq sq : Bool) :
    pathScan (92 :: x :: rest) dq sq = pathScan rest dq sq ∧
    fakeScan (92 :: x :: rest) dq sq = fakeScan rest dq sq :=
  ⟨rfl, rfl⟩

/-- C4: a value in which the scan meets, inside a double-quoted region, a `$`
immediately followed by a byte that is not a letter or `_` is rejected; a
value with no such scanned `$` occurrence is never rejected by the `$` rule
(a `$` outside double quotes, or followed by a letter or `_`, or consumed by a
backslash escape, cannot be the cause). The last conjunct grounds the
cause-instrumented scan in `pathWithRewriteHasInvalidChars` itself. -/
theorem c4_dollar_rule (s : List Nat) :
    (hasBadDollar s = true → pathWithRewriteHasInvalidChars s = true) ∧
    (hasBadDollar s = false → pathScanCause s false false ≠ ScanCause.dollar) ∧
    (pathWithRewriteHasInvalidChars s = true ↔ pathScanCause s false false ≠ ScanCause.ok) := by
  obtain ⟨h1, _, _, _, h5, h6⟩ := scan_facts s false false
  exact ⟨fun h => h5 (by simpa [hasBadDollar] using h),
         fun h => h6 (by simpa [hasBadDollar] using h), h1⟩

/-- Witness for C4: `"$%"` (bytes 34 36 37 34) has a bad `$` inside double
quotes and is rejected; `"$a"` (bytes 34 36 97 34) has no bad `$` and the `$`
rule is not the cause of any rejection. -/
theorem c4_dollar_rule_witness :
    pathWithRewriteHasInvalidChars [34, 36, 37, 34] = true ∧
    pathScanCause [34, 36, 97, 34] false false ≠ ScanCause.dollar :=
  ⟨(c4_dollar_rule [34, 36, 37, 34]).1 (by decide),
   (c4_dollar_rule [34, 36, 97, 34]).2.1 (by decide)⟩

/-- C10 counterexample: on the single byte `"` (34), the full scanner rejects
(`pathWithRewriteHasInvalidChars` returns `true`, unbalanced quoting) but
`fakeSimpleValidation` accepts (returns `true`, it has no balance check), so
the two scanners do not compute the same accept/reject decision. -/
theorem c10_counterexample :
    pathWithRewriteHasInvalidChars [34] = true ∧ fakeSimpleValidation [34] = true := by
  decide

/-- C10 (amended): the refinement holds in one direction only — whenever
`fakeSimpleValidation` rejects (returns `false`), `pathWithRewriteHasInvalidChars`
rejects (returns `true`); the converse fails because the full scanner also
rejects unbalanced quoting and bad `$` sequences inside double quotes. -/
theorem c10_fake_reject_implies_path_reject (s : List Nat) :
    fakeSimpleValidation s = false → pathWithRewriteHasInvalidChars s = true := by
  intro h
  exact (scan_facts s false false).2.1 (by simpa [fakeSimpleValidation] using h)

/-- Witness for C10 (amended): a bare space is rejected by both scanners. -/
theorem c10_fake_reject_implies_path_reject_witness :
    fakeSimpleValidation [32] = false ∧ pathWithRewriteHasInvalidChars [32] = true :=
  ⟨by decide, c10_fake_reject_implies_path_reject [32] (by decide)⟩


/-!
Data model of the routing state store, embedded from the `TestRouter` in
src/pkg/router/template/plugin_test.go. Go maps are modelled as association
lists with map semantics (`alInsert` removes any previous binding).
-/

/-- An endpoint record (plugin_test.go `Endpoint` usage: ID, IP, Port). -/
structure Endpoint where
  id : String
  ip : String
  port : String
deriving DecidableEq, Repr

/-- A service unit: a named collection of endpoints (plugin_test.go). -/
structure ServiceUnit where
  name : String
  endpointTable : List Endpoint
deriving DecidableEq, Repr

/-- Key of a service unit: (namespace, service name), the parts of the Go key
string built by `endpointsKeyFromParts` ("ns/name"). -/
abbrev ServiceUnitKey := String × String

/-- The fields of a route that the embedded code reads: object metadata
(namespace, name, UID, creation timestamp) and spec (host, path, target
service name). The creation timestamp is an integer instant. -/
structure Route where
  ns : String
  name : String
  uid : String
  creationTime : Int
  host : String
  path : String
  toName : String
deriving DecidableEq, Repr

/-- Key of a ServiceAliasConfig: derived deterministically from (host, path)
(spec section 3; plugin_test.go `getKey` calls `routeKeyFromParts` on host and
path). -/
abbrev ServiceAliasConfigKey := String × String

/-- A materialized route config (plugin_test.go `AddRoute`). The `ns` field
is modelled from the spec: the namespace purge (spec section 3) removes
configs whose namespace falls outside the scope, so each record carries the
owning route's namespace (`getPartsFromRouteKey` is not under src/). -/
structure ServiceAliasConfig where
  host : String
  path : String
  ns : String
  serviceUnits : List ServiceUnitKey
deriving DecidableEq, Repr

/-- Association-list lookup with map semantics. -/
def alLookup {κ α : Type} [DecidableEq κ] (l : List (κ × α)) (k : κ) : Option α :=
  (l.find? (fun p => decide (p.1 = k))).map (fun p => p.2)

/-- Association-list insert with map semantics: any previous binding of the
key is dropped. -/
def alInsert {κ α : Type} [DecidableEq κ] (l : List (κ × α)) (k : κ) (v : α) : List (κ × α) :=
  (k, v) :: l.filter (fun p => decide (p.1 ≠ k))

/-- Association-list delete. -/
def alErase {κ α : Type} [DecidableEq κ] (l : List (κ × α)) (k : κ) : List (κ × α) :=
  l.filter (fun p => decide (p.1 ≠ k))

theorem alLookup_insert_self {κ α : Type} [DecidableEq κ] (l : List (κ × α)) (k : κ) (v : α) :
    alLookup (alInsert l k v) k = some v := by
  simp [alLookup, alInsert]

/-- The routing state store of plugin_test.go `TestRouter`: route configs
keyed by (host, path) and service units keyed by (namespace, name). -/
structure TestRouter where
  state : List (ServiceAliasConfigKey × ServiceAliasConfig)
  serviceUnits : List (ServiceUnitKey × ServiceUnit)
deriving DecidableEq, Repr

/-- The Go key string "ns/name" of a service unit key. -/
def serviceUnitKeyName (k : ServiceUnitKey) : String := k.1 ++ "/" ++ k.2

/-- `TestRouter.CreateServiceUnit`: registers an empty service unit under the
id. -/
def TestRouter.createServiceUnit (r : TestRouter) (id : ServiceUnitKey) : TestRouter :=
  { r with serviceUnits := alInsert r.serviceUnits id ⟨serviceUnitKeyName id, []⟩ }

/-- `TestRouter.FindServiceUnit`. -/
def TestRouter.findServiceUnit (r : TestRouter) (id : ServiceUnitKey) : Option ServiceUnit :=
  alLookup r.serviceUnits id

/-- `TestRouter.AddEndpoints` (plugin_test.go lines 257-267): fetch the unit
(Go zero value if absent), keep the store untouched when the new endpoint
list is deeply equal to the current table, otherwise overwrite the table
wholesale. -/
def TestRouter.addEndpoints (r : TestRouter) (id : ServiceUnitKey) (endpoints : List Endpoint) :
    TestRouter :=
  let su := (r.findServiceUnit id).getD ⟨"", []⟩
  if su.endpointTable = endpoints then r
  else { r with serviceUnits := alInsert r.serviceUnits id { su with endpointTable := endpoints } }

/-- Modelled from the spec: `getServiceUnits` (template utilities, not under
src/) — the backend service units referenced by a route: its single target
service, keyed by (namespace, service name). -/
def getServiceUnits (route : Route) : List ServiceUnitKey := [(route.ns, route.toName)]

/-- Modelled from the spec: `routeKeyFromParts` (not under src/) — the route
key derived deterministically from (host, path), as `getKey` in
plugin_test.go passes host and path. -/
def getKey (route : Route) : ServiceAliasConfigKey := (route.host, route.path)

/-- `TestRouter.AddRoute`: build the config, create the referenced service
units, and store the config under the route key. -/
def TestRouter.addRoute (r : TestRouter) (route : Route) : TestRouter :=
  let config : ServiceAliasConfig :=
    { host := route.host, path := route.path, ns := route.ns,
      serviceUnits := getServiceUnits route }
  let r2 := (getServiceUnits route).foldl (fun acc k => acc.createServiceUnit k) r
  { r2 with state := alInsert r2.state (getKey route) config }

/-- `TestRouter.RemoveRoute`: drop the config of the route key if present. -/
def TestRouter.removeRoute (r : TestRouter) (route : Route) : TestRouter :=
  if (alLookup r.state (getKey route)).isSome then
    { r with state := alErase r.state (getKey route) }
  else r

/-- `TestRouter.FilterNamespaces` (plugin_test.go lines 326-348): an empty
scope resets both maps; otherwise every service unit and every config whose
namespace is outside the scope is deleted. The namespace of a config is read
from its record (see `ServiceAliasConfig.ns`). -/
def TestRouter.filterNamespaces (r : TestRouter) (namespaces : List String) : TestRouter :=
  let r0 := if namespaces = [] then ({ state := [], serviceUnits := [] } : TestRouter) else r
  { state := r0.state.filter (fun p => decide (p.2.ns ∈ namespaces)),
    serviceUnits := r0.serviceUnits.filter (fun p => decide (p.1.1 ∈ namespaces)) }

/-- The store together with its dirty/commit counter. The counter is modelled
from the spec: the template router's dirty flag (router.go, not under src/)
is bumped exactly when a mutation changes state, and skipped when the new
endpoint table is structurally identical (spec sections 4.3 and 8). The
update logic itself is `TestRouter.AddEndpoints` from src/. -/
structure DirtyRouter where
  router : TestRouter
  commitCount : Nat
deriving DecidableEq, Repr

/-- `AddEndpoints` through the dirty-tracking store: identical structural
comparison; the counter is incremented only when the table is replaced. -/
def DirtyRouter.addEndpoints (r : DirtyRouter) (id : ServiceUnitKey) (endpoints : List Endpoint) :
    DirtyRouter :=
  let su := (r.router.findServiceUnit id).getD ⟨"", []⟩
  if su.endpointTable = endpoints then r
  else
    ⟨{ r.router with
        serviceUnits := alInsert r.router.serviceUnits id { su with endpointTable := endpoints } },
      r.commitCount + 1⟩

/-- C5: adding an endpoint list that is structurally equal to the unit's
current table is a complete no-op (the store, including the dirty/commit
counter, is unchanged); adding a structurally different list replaces the
table wholesale with exactly the given list, increments the counter, and
touches nothing else of the store. -/
theorem c5_addEndpoints_deep_equal (r : DirtyRouter) (id : ServiceUnitKey)
    (endpoints : List Endpoint) (su : ServiceUnit)
    (hfind : r.router.findServiceUnit id = some su) :
    (su.endpointTable = endpoints → r.addEndpoints id endpoints = r) ∧
    (su.endpointTable ≠ endpoints →
      (r.addEndpoints id endpoints).commitCount = r.commitCount + 1 ∧
      (r.addEndpoints id endpoints).router.findServiceUnit id =
        some { su with endpointTable := endpoints } ∧
      (r.addEndpoints id endpoints).router.state = r.router.state) := by
  constructor
  · intro h
    simp [DirtyRouter.addEndpoints, hfind, h]
  · intro h
    simp only [DirtyRouter.addEndpoints, hfind, Option.getD_some, if_neg h]
    simp [TestRouter.findServiceUnit, alLookup_insert_self]

/-- Witness for C5: on a store holding one unit with an empty table and
counter 0, re-adding the empty table is a no-op, while adding one endpoint
bumps the counter to 1 and installs exactly that table. -/
theorem c5_addEndpoints_deep_equal_witness :
    (DirtyRouter.addEndpoints ⟨⟨[], [(("foo", "svc"), ⟨"foo/svc", []⟩)]⟩, 0⟩ ("foo", "svc") [] =
      ⟨⟨[], [(("foo", "svc"), ⟨"foo/svc", []⟩)]⟩, 0⟩) ∧
    ((DirtyRouter.addEndpoints ⟨⟨[], [(("foo", "svc"), ⟨"foo/svc", []⟩)]⟩, 0⟩ ("foo", "svc")
        [⟨"ep1", "1.1.1.1", "80"⟩]).commitCount = 0 + 1 ∧
     (DirtyRouter.addEndpoints ⟨⟨[], [(("foo", "svc"), ⟨"foo/svc", []⟩)]⟩, 0⟩ ("foo", "svc")
        [⟨"ep1", "1.1.1.1", "80"⟩]).router.findServiceUnit ("foo", "svc") =
        some ⟨"foo/svc", [⟨"ep1", "1.1.1.1", "80"⟩]⟩ ∧
     (DirtyRouter.addEndpoints ⟨⟨[], [(("foo", "svc"), ⟨"foo/svc", []⟩)]⟩, 0⟩ ("foo", "svc")
        [⟨"ep1", "1.1.1.1", "80"⟩]).router.state = []) :=
  ⟨(c5_addEndpoints_deep_equal ⟨⟨[], [(("foo", "svc"), ⟨"foo/svc", []⟩)]⟩, 0⟩ ("foo", "svc") []
      ⟨"foo/svc", []⟩ (by decide)).1 (by decide),
   (c5_addEndpoints_deep_equal ⟨⟨[], [(("foo", "svc"), ⟨"foo/svc", []⟩)]⟩, 0⟩ ("foo", "svc")
      [⟨"ep1", "1.1.1.1", "80"⟩] ⟨"foo/svc", []⟩ (by decide)).2 (by decide)⟩


/-! Host-claim arbitration and namespace scoping. -/

/-- Watch event types. -/
inductive EventType
  | added
  | modified
  | deleted
deriving DecidableEq, Repr

/-- A recorded route rejection: `RecordRouteRejection(route, reason, message)`. -/
structure Rejection where
  route : Route
  reason : String
  message : String
deriving DecidableEq, Repr

/-- Modelled from the spec: the state of the HostClaimArbiter
(`controller.UniqueHost`, not under src/) — the current claim owner per
(host, path) key, the namespace allow-list (absent until the first
`HandleNamespaces` call), the wrapped routing state store (`TestRouter` from
src/), and the rejections recorded so far. -/
structure UniqueHostState where
  claims : List (ServiceAliasConfigKey × Route)
  allowed : Option (List String)
  router : TestRouter
  rejections : List Rejection
deriving DecidableEq, Repr

/-- The arbiter before any event: no claims, no scope set, empty store. -/
def UniqueHostState.initial : UniqueHostState := ⟨[], none, ⟨[], []⟩, []⟩

/-- Modelled from the spec: the namespace allow-list gates all mutations
(spec section 3); before any scope call every namespace is allowed. -/
def nsAllowed (st : UniqueHostState) (route : Route) : Bool :=
  match st.allowed with
  | none => true
  | some allowedList => decide (route.ns ∈ allowedList)

/-- Modelled from the spec (section 4.2): route Add/Modify. If the (host,
path) key is unclaimed, admit the route (store the config, create its service
units). If claimed by the same route, re-admit. Otherwise the older creation
timestamp wins: an older incoming route evicts the current owner (recording a
rejection for the owner with reason HostAlreadyClaimed and message
"replaced by older route <name>") and is admitted; a newer-or-equal incoming
route is rejected (reason HostAlreadyClaimed, message
"route <owner> already exposes <host> and is older") and the store is not
mutated. -/
def handleRouteAdd (st : UniqueHostState) (route : Route) : UniqueHostState :=
  let k := getKey route
  match alLookup st.claims k with
  | none =>
    { st with claims := alInsert st.claims k route, router := st.router.addRoute route }
  | some owner =>
    if owner.uid = route.uid then
      { st with claims := alInsert st.claims k route, router := st.router.addRoute route }
    else if route.creationTime < owner.creationTime then
      { st with
        claims := alInsert st.claims k route,
        router := st.router.addRoute route,
        rejections := st.rejections ++
          [⟨owner, "HostAlreadyClaimed", "replaced by older route " ++ route.name⟩] }
    else
      { st with
        rejections := st.rejections ++
          [⟨route, "HostAlreadyClaimed",
            "route " ++ owner.name ++ " already exposes " ++ route.host ++ " and is older"⟩] }

/-- Modelled from the spec (section 4.2): route Delete. Only the owner's
deletion removes the claim and its config; a non-owner's deletion is a
no-op. -/
def handleRouteDelete (st : UniqueHostState) (route : Route) : UniqueHostState :=
  let k := getKey route
  match alLookup st.claims k with
  | none => st
  | some owner =>
    if owner.uid = route.uid then
      { st with claims := alErase st.claims k, router := st.router.removeRoute route }
    else st

/-- Modelled from the spec: `HandleRoute` of the arbiter — events for routes
outside the namespace scope are ignored; otherwise Add/Modify arbitrate and
Delete releases the claim. -/
def UniqueHostState.handleRoute (st : UniqueHostState) (eventType : EventType) (route : Route) :
    UniqueHostState :=
  if nsAllowed st route then
    match eventType with
    | EventType.added => handleRouteAdd st route
    | EventType.modified => handleRouteAdd st route
    | EventType.deleted => handleRouteDelete st route
  else st

/-- Modelled from the spec: `HandleNamespaces` — the scope becomes the new
set and all state outside it is purged in one pass (spec section 3): claims
of routes outside the scope are dropped and the store runs
`FilterNamespaces` from src/. -/
def UniqueHostState.handleNamespaces (st : UniqueHostState) (namespaces : List String) :
    UniqueHostState :=
  { claims := st.claims.filter (fun p => decide (p.2.ns ∈ namespaces)),
    allowed := some namespaces,
    router := st.router.filterNamespaces namespaces,
    rejections := st.rejections }

/-- C3: for two routes `r1` (older) and `r2` (newer) with the same (host,
path) key and distinct UIDs, starting from the empty arbiter:
adding `r1` then `r2` rejects `r2` with reason HostAlreadyClaimed and message
"route <r1> already exposes <host> and is older" while leaving the claim with
`r1` and the store untouched by the second event; adding `r2` then `r1`
evicts `r2` (rejection with message "replaced by older route <r1>") and
admits `r1`: the claim moves to `r1`, its config is stored, and its service
unit exists. The older route owns the claim in both arrival orders. -/
theorem c3_older_route_wins (r1 r2 : Route)
    (hOld : r1.creationTime < r2.creationTime)
    (hHost : r1.host = r2.host) (hPath : r1.path = r2.path)
    (hUid : r1.uid ≠ r2.uid) :
    ((UniqueHostState.initial.handleRoute EventType.added r1).handleRoute
        EventType.added r2).router =
      (UniqueHostState.initial.handleRoute EventType.added r1).router ∧
    ((UniqueHostState.initial.handleRoute EventType.added r1).handleRoute
        EventType.added r2).claims =
      (UniqueHostState.initial.handleRoute EventType.added r1).claims ∧
    ((UniqueHostState.initial.handleRoute EventType.added r1).handleRoute
        EventType.added r2).rejections =
      [⟨r2, "HostAlreadyClaimed",
        "route " ++ r1.name ++ " already exposes " ++ r2.host ++ " and is older"⟩] ∧
    alLookup ((UniqueHostState.initial.handleRoute EventType.added r1).handleRoute
        EventType.added r2).claims (getKey r1) = some r1 ∧
    ((UniqueHostState.initial.handleRoute EventType.added r2).handleRoute
        EventType.added r1).rejections =
      [⟨r2, "HostAlreadyClaimed", "replaced by older route " ++ r1.name⟩] ∧
    alLookup ((UniqueHostState.initial.handleRoute EventType.added r2).handleRoute
        EventType.added r1).claims (getKey r1) = some r1 ∧
    ((UniqueHostState.initial.handleRoute EventType.added r2).handleRoute
        EventType.added r1).router.findServiceUnit (r1.ns, r1.toName) =
      some ⟨serviceUnitKeyName (r1.ns, r1.toName), []⟩ ∧
    alLookup ((UniqueHostState.initial.handleRoute EventType.added r2).handleRoute
        EventType.added r1).router.state (getKey r1) =
      some ⟨r1.host, r1.path, r1.ns, getServiceUnits r1⟩ := by
  have hkey : getKey r2 = getKey r1 := by
    simp [getKey, hHost, hPath]
  have hNotLt : ¬ r2.creationTime < r1.creationTime := by omega
  have hUid2 : r2.uid ≠ r1.uid := fun h => hUid h.symm
  have hUid1 : ¬ (r1.uid = r2.uid) := hUid
  simp [UniqueHostState.handleRoute, UniqueHostState.initial, nsAllowed, handleRouteAdd,
    alLookup, alInsert, alErase, hkey, hOld, hNotLt, hUid1, hUid2, TestRouter.addRoute,
    TestRouter.createServiceUnit, TestRouter.findServiceUnit, getServiceUnits,
    serviceUnitKeyName]


/-- Witness for C3: route "test" (t=0) against route "dupe" (t=3600) on
www.example.com — adding older-then-newer rejects the newer with the
comparative message; adding newer-then-older leaves the claim with the older
route. -/
theorem c3_older_route_wins_witness :
    ((UniqueHostState.initial.handleRoute EventType.added
        ⟨"foo", "test", "001", 0, "www.example.com", "", "TestService"⟩).handleRoute
        EventType.added
        ⟨"foo", "dupe", "002", 3600, "www.example.com", "", "TestService2"⟩).rejections =
      [⟨⟨"foo", "dupe", "002", 3600, "www.example.com", "", "TestService2"⟩,
        "HostAlreadyClaimed",
        "route " ++ "test" ++ " already exposes " ++ "www.example.com" ++ " and is older"⟩] ∧
    alLookup ((UniqueHostState.initial.handleRoute EventType.added
        ⟨"foo", "dupe", "002", 3600, "www.example.com", "", "TestService2"⟩).handleRoute
        EventType.added
        ⟨"foo", "test", "001", 0, "www.example.com", "", "TestService"⟩).claims
        ("www.example.com", "") =
      some ⟨"foo", "test", "001", 0, "www.example.com", "", "TestService"⟩ := by
  have h := c3_older_route_wins
    ⟨"foo", "test", "001", 0, "www.example.com", "", "TestService"⟩
    ⟨"foo", "dupe", "002", 3600, "www.example.com", "", "TestService2"⟩
    (by decide) (by decide) (by decide) (by decide)
  exact ⟨h.2.2.1, h.2.2.2.2.2.1⟩

/-- C6: after the scope is narrowed to `scopeSet`, every remaining service
unit and every remaining ServiceAliasConfig has its namespace inside
`scopeSet`, any single route event for a namespace outside `scopeSet` leaves
the whole arbiter state (claims, store, rejections, scope) unchanged, and so
does any sequence of such events — until the scope is changed again. -/
theorem c6_scope_narrowing_purges_and_gates (st : UniqueHostState) (scopeSet : List String) :
    (∀ k su, (k, su) ∈ (st.handleNamespaces scopeSet).router.serviceUnits → k.1 ∈ scopeSet) ∧
    (∀ k cfg, (k, cfg) ∈ (st.handleNamespaces scopeSet).router.state → cfg.ns ∈ scopeSet) ∧
    (∀ eventType route, route.ns ∉ scopeSet →
      (st.handleNamespaces scopeSet).handleRoute eventType route = st.handleNamespaces scopeSet) ∧
    (∀ events : List (EventType × Route), (∀ e ∈ events, e.2.ns ∉ scopeSet) →
      events.foldl (fun s e => s.handleRoute e.1 e.2) (st.handleNamespaces scopeSet) =
        st.handleNamespaces scopeSet) := by
  have hGate : ∀ eventType route, route.ns ∉ scopeSet →
      (st.handleNamespaces scopeSet).handleRoute eventType route = st.handleNamespaces scopeSet := by
    intro eventType route hns
    simp [UniqueHostState.handleRoute, nsAllowed, UniqueHostState.handleNamespaces, hns]
  refine ⟨?_, ?_, hGate, ?_⟩
  · intro k su hmem
    simp only [UniqueHostState.handleNamespaces, TestRouter.filterNamespaces,
      List.mem_filter] at hmem
    exact of_decide_eq_true hmem.2
  · intro k cfg hmem
    simp only [UniqueHostState.handleNamespaces, TestRouter.filterNamespaces,
      List.mem_filter] at hmem
    exact of_decide_eq_true hmem.2
  · intro events
    induction events with
    | nil => intro _; rfl
    | cons e rest ih =>
      intro hall
      have he : e.2.ns ∉ scopeSet := hall e (List.mem_cons_self e rest)
      have hrest : ∀ x ∈ rest, x.2.ns ∉ scopeSet := fun x hx => hall x (List.mem_cons_of_mem e hx)
      simp only [List.foldl_cons, hGate e.1 e.2 he]
      exact ih hrest

/-- Witness for C6: a state holding units and configs in namespaces "foo" and
"bar", narrowed to scope ["bar"]: the surviving unit and config are in "bar",
and an Added event for a "foo" route is ignored. -/
theorem c6_scope_narrowing_purges_and_gates_witness :
    ("bar", "svc2").1 ∈ ["bar"] ∧
    (⟨"h2", "", "bar", [("bar", "svc2")]⟩ : ServiceAliasConfig).ns ∈ ["bar"] ∧
    ((UniqueHostState.mk [] none
        ⟨[(("h1", ""), ⟨"h1", "", "foo", [("foo", "svc1")]⟩),
          (("h2", ""), ⟨"h2", "", "bar", [("bar", "svc2")]⟩)],
         [(("foo", "svc1"), ⟨"foo/svc1", []⟩), (("bar", "svc2"), ⟨"bar/svc2", []⟩)]⟩
        []).handleNamespaces ["bar"]).handleRoute EventType.added
        ⟨"foo", "r", "009", 5, "h3", "", "svc3"⟩ =
      (UniqueHostState.mk [] none
        ⟨[(("h1", ""), ⟨"h1", "", "foo", [("foo", "svc1")]⟩),
          (("h2", ""), ⟨"h2", "", "bar", [("bar", "svc2")]⟩)],
         [(("foo", "svc1"), ⟨"foo/svc1", []⟩), (("bar", "svc2"), ⟨"bar/svc2", []⟩)]⟩
        []).handleNamespaces ["bar"] := by
  have h := c6_scope_narrowing_purges_and_gates
    (UniqueHostState.mk [] none
      ⟨[(("h1", ""), ⟨"h1", "", "foo", [("foo", "svc1")]⟩),
        (("h2", ""), ⟨"h2", "", "bar", [("bar", "svc2")]⟩)],
       [(("foo", "svc1"), ⟨"foo/svc1", []⟩), (("bar", "svc2"), ⟨"bar/svc2", []⟩)]⟩
      []) ["bar"]
  refine ⟨?_, ?_, h.2.2.1 EventType.added ⟨"foo", "r", "009", 5, "h3", "", "svc3"⟩ (by decide)⟩
  · exact h.1 ("bar", "svc2") ⟨"bar/svc2", []⟩ (by decide)
  · exact h.2.1 ("h2", "") ⟨"h2", "", "bar", [("bar", "svc2")]⟩ (by decide)


/-!
The validation chain stages. Each stage is embedded as a function from the
event to its observable outcome: the status records it emits, the events it
forwards to the next plugin in the chain, and the error it returns. The
validation predicates themselves (`routeapihelpers.ExtendedValidateRoute`,
`CheckConfig`, `DeprecatedValidateRoute`, `UpgradeRouteValidation`) are not
under src/ and enter as oracle parameters (`Route → Option String`, `some`
being the error message).
-/

/-- Observable outcome of one `HandleRoute` call of a chain stage: recorded
status entries, events forwarded to the next plugin, and the error returned
by the stage itself (`none` in the pass case stands for returning whatever
the next plugin returns). -/
structure ExtValOutcome where
  recorded : List Rejection
  forwarded : List (EventType × Route)
  err : Option String
deriving DecidableEq, Repr

/-- `ExtendedValidator.HandleRoute` from src/unnamed/part_000 lines 59-81:
a route failing extended validation gets an ExtendedValidationFailed
rejection, a synthetic Deleted forward, and the fixed blocking error; a route
passing it is dry-run checked (`CheckConfig`): on check failure a
HAProxyCheckConfigFailed rejection is recorded and the check error returned
with no event forwarded to the next plugin; otherwise the original event is
forwarded. The internal Added/Deleted round trips on the private check-only
template plugin are scaffolding for the dry run and are not part of the
outcome. -/
def extendedValidatorHandleRoute (extendedValidate checkConfig : Route → Option String)
    (eventType : EventType) (route : Route) : ExtValOutcome :=
  match extendedValidate route with
  | some msg =>
    ⟨[⟨route, "ExtendedValidationFailed", msg⟩], [(EventType.deleted, route)],
      some "invalid route configuration"⟩
  | none =>
    match checkConfig route with
    | some msg => ⟨[⟨route, "HAProxyCheckConfigFailed", msg⟩], [], some msg⟩
    | none => ⟨[], [(eventType, route)], none⟩

/-- The second `ExtendedValidator.HandleRoute` variant in the sources
(appended document of plugin_test.go, lines 1414-1429): no config dry run;
instead a non-blocking post-upgrade check that only bumps a gauge, after
which the original event is always forwarded. -/
def extendedValidatorGaugeHandleRoute (extendedValidate postUpgradeValidate : Route → Option String)
    (gauge : Nat) (eventType : EventType) (route : Route) : ExtValOutcome × Nat :=
  match extendedValidate route with
  | some msg =>
    (⟨[⟨route, "ExtendedValidationFailed", msg⟩], [(EventType.deleted, route)],
      some "invalid route configuration"⟩, gauge)
  | none =>
    match postUpgradeValidate route with
    | some _ => (⟨[], [(eventType, route)], none⟩, gauge + 1)
    | none => (⟨[], [(eventType, route)], none⟩, gauge)


/-- C7 counterexample: the claim says a route that passes extended validation
is forwarded to the next plugin with its original event type. In the
src/unnamed/part_000 variant, a route that passes extended validation but
fails the HAProxy config dry run (a failure mode the spec lists under the
HAProxyCheckConfigFailed reason code) is not forwarded at all: the stage
records the check rejection and returns the error without calling the next
plugin. Concretely, with an always-passing extended validator and a failing
config check, the Added event for the route forwards nothing. -/
theorem c7_counterexample :
    (fun _ : Route => (none : Option String))
        ⟨"foo", "test", "001", 0, "www.example.com", "", "TestService"⟩ = none ∧
    (extendedValidatorHandleRoute (fun _ => none)
        (fun _ => some "haproxy config check failed") EventType.added
        ⟨"foo", "test", "001", 0, "www.example.com", "", "TestService"⟩).forwarded = [] ∧
    (extendedValidatorHandleRoute (fun _ => none)
        (fun _ => some "haproxy config check failed") EventType.added
        ⟨"foo", "test", "001", 0, "www.example.com", "", "TestService"⟩).forwarded ≠
      [(EventType.added, ⟨"foo", "test", "001", 0, "www.example.com", "", "TestService"⟩)] := by
  refine ⟨rfl, rfl, ?_⟩
  simp [extendedValidatorHandleRoute]

/-- C7 (amended): a route failing extended validation gets an
ExtendedValidationFailed rejection, a synthetic Deleted forwarded to the next
plugin, and a non-nil blocking error; a route passing extended validation is
then dry-run config checked: on check failure a HAProxyCheckConfigFailed
rejection is recorded and a non-nil error returned without forwarding any
event; only a route passing both is forwarded with its original event type
(and no error of the stage's own). The final two conjuncts show the gauge
variant of the validator (plugin_test.go lines 1414-1429) satisfies the
original claim: the same failure behavior, and every route passing extended
validation is forwarded with its original event type. -/
theorem c7_extended_validator (extendedValidate checkConfig postUpgradeValidate :
      Route → Option String) (gauge : Nat) (eventType : EventType) (route : Route) :
    (∀ msg, extendedValidate route = some msg →
      extendedValidatorHandleRoute extendedValidate checkConfig eventType route =
        ⟨[⟨route, "ExtendedValidationFailed", msg⟩], [(EventType.deleted, route)],
          some "invalid route configuration"⟩) ∧
    (extendedValidate route = none → ∀ msg, checkConfig route = some msg →
      extendedValidatorHandleRoute extendedValidate checkConfig eventType route =
        ⟨[⟨route, "HAProxyCheckConfigFailed", msg⟩], [], some msg⟩) ∧
    (extendedValidate route = none → checkConfig route = none →
      extendedValidatorHandleRoute extendedValidate checkConfig eventType route =
        ⟨[], [(eventType, route)], none⟩) ∧
    (∀ msg, extendedValidate route = some msg →
      extendedValidatorGaugeHandleRoute extendedValidate postUpgradeValidate gauge
          eventType route =
        (⟨[⟨route, "ExtendedValidationFailed", msg⟩], [(EventType.deleted, route)],
          some "invalid route configuration"⟩, gauge)) ∧
    (extendedValidate route = none →
      (extendedValidatorGaugeHandleRoute extendedValidate postUpgradeValidate gauge
          eventType route).1.forwarded = [(eventType, route)] ∧
      (extendedValidatorGaugeHandleRoute extendedValidate postUpgradeValidate gauge
          eventType route).1.err = none) := by
  refine ⟨?_, ?_, ?_, ?_, ?_⟩
  · intro msg hv
    simp [extendedValidatorHandleRoute, hv]
  · intro hv msg hc
    simp [extendedValidatorHandleRoute, hv, hc]
  · intro hv hc
    simp [extendedValidatorHandleRoute, hv, hc]
  · intro msg hv
    simp [extendedValidatorGaugeHandleRoute, hv]
  · intro hv
    cases hc : postUpgradeValidate route <;>
      simp [extendedValidatorGaugeHandleRoute, hv, hc]

/-- Witness for C7 (amended): with an extended validator failing on routes
whose UID is "001", the failing route is deleted downstream with a blocking
error, a passing route with a failing config check is held back with the
check error, and a passing route with a passing check is forwarded as Added;
the gauge variant forwards the passing route as Added with no error. -/
theorem c7_extended_validator_witness :
    extendedValidatorHandleRoute
        (fun r => if r.uid = "001" then some "invalid TLS" else none) (fun _ => none)
        EventType.added ⟨"foo", "bad", "001", 0, "h", "", "svc"⟩ =
      ⟨[⟨⟨"foo", "bad", "001", 0, "h", "", "svc"⟩, "ExtendedValidationFailed", "invalid TLS"⟩],
        [(EventType.deleted, ⟨"foo", "bad", "001", 0, "h", "", "svc"⟩)],
        some "invalid route configuration"⟩ ∧
    extendedValidatorHandleRoute
        (fun r => if r.uid = "001" then some "invalid TLS" else none)
        (fun _ => some "check failed")
        EventType.added ⟨"foo", "ok", "002", 0, "h", "", "svc"⟩ =
      ⟨[⟨⟨"foo", "ok", "002", 0, "h", "", "svc"⟩, "HAProxyCheckConfigFailed", "check failed"⟩],
        [], some "check failed"⟩ ∧
    extendedValidatorHandleRoute
        (fun r => if r.uid = "001" then some "invalid TLS" else none) (fun _ => none)
        EventType.added ⟨"foo", "ok", "002", 0, "h", "", "svc"⟩ =
      ⟨[], [(EventType.added, ⟨"foo", "ok", "002", 0, "h", "", "svc"⟩)], none⟩ ∧
    (extendedValidatorGaugeHandleRoute
        (fun r => if r.uid = "001" then some "invalid TLS" else none) (fun _ => none) 0
        EventType.added ⟨"foo", "ok", "002", 0, "h", "", "svc"⟩).1.forwarded =
      [(EventType.added, ⟨"foo", "ok", "002", 0, "h", "", "svc"⟩)] :=
  ⟨(c7_extended_validator (fun r => if r.uid = "001" then some "invalid TLS" else none)
      (fun _ => none) (fun _ => none) 0 EventType.added
      ⟨"foo", "bad", "001", 0, "h", "", "svc"⟩).1 "invalid TLS" (by simp),
   (c7_extended_validator (fun r => if r.uid = "001" then some "invalid TLS" else none)
      (fun _ => some "check failed") (fun _ => none) 0 EventType.added
      ⟨"foo", "ok", "002", 0, "h", "", "svc"⟩).2.1 (by simp) "check failed" rfl,
   (c7_extended_validator (fun r => if r.uid = "001" then some "invalid TLS" else none)
      (fun _ => none) (fun _ => none) 0 EventType.added
      ⟨"foo", "ok", "002", 0, "h", "", "svc"⟩).2.2.1 (by simp) rfl,
   ((c7_extended_validator (fun r => if r.uid = "001" then some "invalid TLS" else none)
      (fun _ => none) (fun _ => none) 0 EventType.added
      ⟨"foo", "ok", "002", 0, "h", "", "svc"⟩).2.2.2.2 (by simp)).1⟩


/-- `fakeStatusRecorder` (plugin_test.go lines 577-605): the status recorder
used with the deprecation validator. Both lists hold the same `status` shape
(route, reason, message) as `Rejection`. -/
structure FakeStatusRecorder where
  rejections : List Rejection
  deprecated : List Rejection
deriving DecidableEq, Repr

/-- `fakeStatusRecorder.RecordRouteDeprecated` (plugin_test.go lines 585-587):
appends the status unconditionally — there is no deduplication by route
identity. -/
def FakeStatusRecorder.recordRouteDeprecated (r : FakeStatusRecorder) (route : Route)
    (reason message : String) : FakeStatusRecorder :=
  { r with deprecated := r.deprecated ++ [⟨route, reason, message⟩] }

/-- `fakeStatusRecorder.RecordRouteNotDeprecated` (plugin_test.go lines
588-596): keeps exactly the entries whose route UID differs from the given
route's. -/
def FakeStatusRecorder.recordRouteNotDeprecated (r : FakeStatusRecorder) (route : Route) :
    FakeStatusRecorder :=
  { r with deprecated := r.deprecated.filter (fun e => decide (e.route.uid ≠ route.uid)) }

/-- `fakeStatusRecorder.isDeprecated` (plugin_test.go lines 598-605): some
recorded entry has the route's UID. -/
def FakeStatusRecorder.isDeprecated (r : FakeStatusRecorder) (route : Route) : Bool :=
  r.deprecated.any (fun e => decide (e.route.uid = route.uid))

/-- `DeprecationValidation.HandleRoute` from src/unnamed/part_000 lines
137-148, acting on the `fakeStatusRecorder` from src/: run the (pure)
deprecation rules; on failure call `RecordRouteDeprecated` with reason
DeprecatedValidationFailed, on success call `RecordRouteNotDeprecated`;
the event is always forwarded, so only the recorded state is modelled. -/
def deprecationValidationHandleRoute (deprecatedValidate : Route → Option String)
    (recorder : FakeStatusRecorder) (route : Route) : FakeStatusRecorder :=
  match deprecatedValidate route with
  | some msg => recorder.recordRouteDeprecated route "DeprecatedValidationFailed" msg
  | none => recorder.recordRouteNotDeprecated route

theorem filter_route_ne_uid_idem (l : List Rejection) (u : String) :
    ((l.filter (fun e => decide (e.route.uid ≠ u))).filter
        (fun e => decide (e.route.uid ≠ u))) =
      l.filter (fun e => decide (e.route.uid ≠ u)) := by
  induction l with
  | nil => rfl
  | cons a l ih =>
    by_cases h : a.route.uid = u <;> simp [List.filter_cons, h, ih]

theorem countP_route_uid_of_filter_ne (l : List Rejection) (u : String) :
    (l.filter (fun e => decide (e.route.uid ≠ u))).countP
      (fun e => decide (e.route.uid = u)) = 0 := by
  induction l with
  | nil => rfl
  | cons a l ih =>
    by_cases h : a.route.uid = u <;> simp [List.filter_cons, List.countP_cons, h, ih]

theorem any_route_uid_of_filter_ne (l : List Rejection) (u : String) :
    (l.filter (fun e => decide (e.route.uid ≠ u))).any
      (fun e => decide (e.route.uid = u)) = false := by
  induction l with
  | nil => rfl
  | cons a l ih =>
    by_cases h : a.route.uid = u <;> simp [List.filter_cons, h, ih]

/-- C8 counterexample: with the recorder of src/ (`fakeStatusRecorder`, whose
`RecordRouteDeprecated` appends without deduplication), handling a route that
fails the deprecation rules twice does not leave the state of handling it
once: the `deprecated` list ends up with two entries for the same UID —
duplicate entries for one route identity, which the claim rules out. -/
theorem c8_counterexample :
    deprecationValidationHandleRoute
        (fun r => if r.uid = "001" then some "sha1 cert" else none)
        (deprecationValidationHandleRoute
          (fun r => if r.uid = "001" then some "sha1 cert" else none) ⟨[], []⟩
          ⟨"foo", "dep", "001", 0, "h", "", "svc"⟩)
        ⟨"foo", "dep", "001", 0, "h", "", "svc"⟩ ≠
      deprecationValidationHandleRoute
        (fun r => if r.uid = "001" then some "sha1 cert" else none) ⟨[], []⟩
        ⟨"foo", "dep", "001", 0, "h", "", "svc"⟩ ∧
    ((deprecationValidationHandleRoute
        (fun r => if r.uid = "001" then some "sha1 cert" else none)
        (deprecationValidationHandleRoute
          (fun r => if r.uid = "001" then some "sha1 cert" else none) ⟨[], []⟩
          ⟨"foo", "dep", "001", 0, "h", "", "svc"⟩)
        ⟨"foo", "dep", "001", 0, "h", "", "svc"⟩).deprecated.countP
      (fun e => decide (e.route.uid = "001"))) = 2 := by
  constructor
  · decide
  · decide

/-- C8 (amended): over the src/ recorder, re-evaluation converges only per
rule outcome, not as literal state equality for failing routes. A route that
passes the deprecation rules has every entry of its identity cleared — zero
entries remain, and a second handling changes nothing. A route that fails the
rules gets one entry appended per handling — the count for its identity grows
by exactly one each time, so duplicates accrue instead of converging to a
single entry. The `isDeprecated` observable does converge: after any handling
it equals the (pure) rule outcome for that route, and re-handling leaves it
unchanged. -/
theorem c8_deprecation_reevaluation (deprecatedValidate : Route → Option String)
    (recorder : FakeStatusRecorder) (route : Route) :
    (deprecatedValidate route = none →
      ((deprecationValidationHandleRoute deprecatedValidate recorder route).deprecated.countP
        (fun e => decide (e.route.uid = route.uid))) = 0 ∧
      deprecationValidationHandleRoute deprecatedValidate
          (deprecationValidationHandleRoute deprecatedValidate recorder route) route =
        deprecationValidationHandleRoute deprecatedValidate recorder route) ∧
    (∀ msg, deprecatedValidate route = some msg →
      ((deprecationValidationHandleRoute deprecatedValidate recorder route).deprecated.countP
        (fun e => decide (e.route.uid = route.uid))) =
        (recorder.deprecated.countP (fun e => decide (e.route.uid = route.uid))) + 1) ∧
    ((deprecationValidationHandleRoute deprecatedValidate recorder route).isDeprecated route =
      (deprecatedValidate route).isSome) ∧
    ((deprecationValidationHandleRoute deprecatedValidate
        (deprecationValidationHandleRoute deprecatedValidate recorder route) route).isDeprecated
        route =
      (deprecationValidationHandleRoute deprecatedValidate recorder route).isDeprecated route) := by
  have hIs : ∀ rec : FakeStatusRecorder,
      (deprecationValidationHandleRoute deprecatedValidate rec route).isDeprecated route =
        (deprecatedValidate route).isSome := by
    intro rec
    cases hv : deprecatedValidate route with
    | some msg =>
      simp [deprecationValidationHandleRoute, hv, FakeStatusRecorder.recordRouteDeprecated,
        FakeStatusRecorder.isDeprecated]
    | none =>
      simp [deprecationValidationHandleRoute, hv, FakeStatusRecorder.recordRouteNotDeprecated,
        FakeStatusRecorder.isDeprecated, any_route_uid_of_filter_ne]
  refine ⟨?_, ?_, hIs recorder, by rw [hIs, hIs]⟩
  · intro hv
    constructor
    · simp [deprecationValidationHandleRoute, hv, FakeStatusRecorder.recordRouteNotDeprecated,
        countP_route_uid_of_filter_ne]
    · simp [deprecationValidationHandleRoute, hv, FakeStatusRecorder.recordRouteNotDeprecated,
        filter_route_ne_uid_idem]
  · intro msg hv
    simp [deprecationValidationHandleRoute, hv, FakeStatusRecorder.recordRouteDeprecated,
      List.countP_append, List.countP_cons]

/-- Witness for C8 (amended): with rules failing exactly UID "001", the
passing route of UID "002" keeps zero entries, one handling of the failing
route takes its count from 0 to 1, and `isDeprecated` reports it. -/
theorem c8_deprecation_reevaluation_witness :
    ((deprecationValidationHandleRoute
        (fun r => if r.uid = "001" then some "sha1 cert" else none) ⟨[], []⟩
        ⟨"foo", "ok", "002", 0, "h", "", "svc"⟩).deprecated.countP
      (fun e => decide (e.route.uid = "002"))) = 0 ∧
    ((deprecationValidationHandleRoute
        (fun r => if r.uid = "001" then some "sha1 cert" else none) ⟨[], []⟩
        ⟨"foo", "dep", "001", 0, "h", "", "svc"⟩).deprecated.countP
      (fun e => decide (e.route.uid = "001"))) = 0 + 1 ∧
    (deprecationValidationHandleRoute
        (fun r => if r.uid = "001" then some "sha1 cert" else none) ⟨[], []⟩
        ⟨"foo", "dep", "001", 0, "h", "", "svc"⟩).isDeprecated
      ⟨"foo", "dep", "001", 0, "h", "", "svc"⟩ = true := by
  have hPass := (c8_deprecation_reevaluation
    (fun r => if r.uid = "001" then some "sha1 cert" else none) ⟨[], []⟩
    ⟨"foo", "ok", "002", 0, "h", "", "svc"⟩).1 (by simp)
  have hFail := (c8_deprecation_reevaluation
    (fun r => if r.uid = "001" then some "sha1 cert" else none) ⟨[], []⟩
    ⟨"foo", "dep", "001", 0, "h", "", "svc"⟩).2.1 "sha1 cert" (by simp)
  have hObs := (c8_deprecation_reevaluation
    (fun r => if r.uid = "001" then some "sha1 cert" else none) ⟨[], []⟩
    ⟨"foo", "dep", "001", 0, "h", "", "svc"⟩).2.2.1
  exact ⟨hPass.1, hFail, by simpa using hObs⟩

/-- One recorder call of the upgrade validator. -/
inductive UpgradeAction
  | conditionTrue (conditionType reason message : String)
  | conditionClear (conditionType : String)
  | unservableInFutureVersions (reason message : String)
  | unservableInFutureVersionsClear
deriving DecidableEq, Repr

/-- `UpgradeValidation.HandleRoute`
(src/pkg/router/controller/upgrade_validation.go lines 53-77): a non-empty
force-add condition name records that condition true and forwards; otherwise
a non-empty force-remove condition name clears it and forwards; otherwise the
upgrade rules run and record or clear the UnservableInFutureVersions
condition. The stage always forwards the original event and returns exactly
what the next plugin (the `next` oracle) returns. -/
def upgradeValidationHandleRoute (forceAddCondition forceRemoveCondition : String)
    (upgradeValidate : Route → Option String) (next : EventType → Route → Option String)
    (eventType : EventType) (route : Route) :
    UpgradeAction × (EventType × Route) × Option String :=
  if forceAddCondition ≠ "" then
    (UpgradeAction.conditionTrue forceAddCondition "ForceUpgradeValidationCondition"
      "forced upgrade validation condition", (eventType, route), next eventType route)
  else if forceRemoveCondition ≠ "" then
    (UpgradeAction.conditionClear forceRemoveCondition, (eventType, route),
      next eventType route)
  else
    match upgradeValidate route with
    | some msg =>
      (UpgradeAction.unservableInFutureVersions "UpgradeRouteValidationFailed" msg,
        (eventType, route), next eventType route)
    | none =>
      (UpgradeAction.unservableInFutureVersionsClear, (eventType, route),
        next eventType route)

/-- C9: with a non-empty force-add condition name, the upgrade validator
unconditionally records that condition true and forwards the original event,
and its outcome is independent of the upgrade validation rules; with an empty
force-add and a non-empty force-remove name, it unconditionally clears the
condition and forwards, again independently of the rules; and in every mode
the stage forwards the original event and returns exactly the next plugin's
error — it never blocks the chain on its own. -/
theorem c9_upgrade_force_modes (forceAdd forceRemove : String)
    (upgradeValidate upgradeValidate2 : Route → Option String)
    (next : EventType → Route → Option String) (eventType : EventType) (route : Route) :
    (forceAdd ≠ "" →
      upgradeValidationHandleRoute forceAdd forceRemove upgradeValidate next
          eventType route =
        (UpgradeAction.conditionTrue forceAdd "ForceUpgradeValidationCondition"
          "forced upgrade validation condition", (eventType, route),
          next eventType route) ∧
      upgradeValidationHandleRoute forceAdd forceRemove upgradeValidate next
          eventType route =
        upgradeValidationHandleRoute forceAdd forceRemove upgradeValidate2 next
          eventType route) ∧
    (forceAdd = "" → forceRemove ≠ "" →
      upgradeValidationHandleRoute forceAdd forceRemove upgradeValidate next
          eventType route =
        (UpgradeAction.conditionClear forceRemove, (eventType, route),
          next eventType route) ∧
      upgradeValidationHandleRoute forceAdd forceRemove upgradeValidate next
          eventType route =
        upgradeValidationHandleRoute forceAdd forceRemove upgradeValidate2 next
          eventType route) ∧
    ((upgradeValidationHandleRoute forceAdd forceRemove upgradeValidate next
        eventType route).2 = ((eventType, route), next eventType route)) := by
  refine ⟨?_, ?_, ?_⟩
  · intro h
    constructor <;> simp [upgradeValidationHandleRoute, h]
  · intro h hr
    constructor <;> simp [upgradeValidationHandleRoute, h, hr]
  · by_cases h : forceAdd = ""
    · by_cases hr : forceRemove = ""
      · cases hv : upgradeValidate route <;>
          simp [upgradeValidationHandleRoute, h, hr, hv]
      · simp [upgradeValidationHandleRoute, h, hr]
    · simp [upgradeValidationHandleRoute, h]

/-- Witness for C9: force-adding condition "UnservableInFutureVersions"
records it true regardless of a failing rule oracle, force-removing clears it
regardless of the rules, and in normal mode the stage forwards the event and
returns the next plugin's (nil) error. -/
theorem c9_upgrade_force_modes_witness :
    upgradeValidationHandleRoute "UnservableInFutureVersions" ""
        (fun _ => some "would fail") (fun _ _ => none) EventType.added
        ⟨"foo", "r", "001", 0, "h", "", "svc"⟩ =
      (UpgradeAction.conditionTrue "UnservableInFutureVersions"
        "ForceUpgradeValidationCondition" "forced upgrade validation condition",
        (EventType.added, ⟨"foo", "r", "001", 0, "h", "", "svc"⟩), none) ∧
    upgradeValidationHandleRoute "" "UnservableInFutureVersions"
        (fun _ => some "would fail") (fun _ _ => none) EventType.added
        ⟨"foo", "r", "001", 0, "h", "", "svc"⟩ =
      (UpgradeAction.conditionClear "UnservableInFutureVersions",
        (EventType.added, ⟨"foo", "r", "001", 0, "h", "", "svc"⟩), none) ∧
    (upgradeValidationHandleRoute "" "" (fun _ => some "would fail") (fun _ _ => none)
        EventType.added ⟨"foo", "r", "001", 0, "h", "", "svc"⟩).2 =
      ((EventType.added, ⟨"foo", "r", "001", 0, "h", "", "svc"⟩), none) :=
  ⟨((c9_upgrade_force_modes "UnservableInFutureVersions" "" (fun _ => some "would fail")
      (fun _ => some "other") (fun _ _ => none) EventType.added
      ⟨"foo", "r", "001", 0, "h", "", "svc"⟩).1 (by simp)).1,
   ((c9_upgrade_force_modes "" "UnservableInFutureVersions" (fun _ => some "would fail")
      (fun _ => some "other") (fun _ _ => none) EventType.added
      ⟨"foo", "r", "001", 0, "h", "", "svc"⟩).2.1 rfl (by simp)).1,
   (c9_upgrade_force_modes "" "" (fun _ => some "would fail")
      (fun _ => some "other") (fun _ _ => none) EventType.added
      ⟨"foo", "r", "001", 0, "h", "", "svc"⟩).2.2⟩

end RouterProof
